import Mathlib

/-!
# Verification of the `lowkey` identity-scheduling / request-execution core

Shallow embedding of `src/lowkey/components/session.py`,
`src/lowkey/components/crawler.py` and `src/lowkey/work.py`,
together with proofs of the specified properties.

Python dynamic values are modelled by `PVal`; Python dicts that the program
builds are string-keyed throughout, so dicts are association lists
`List (String × PVal)`.  Fallible Python code (raising `TypeError`,
`KeyError`, `ValueError`, `ZeroDivisionError`, pydantic validation errors)
is modelled with `Except String`.  Wall-clock time is modelled by `ℚ`
(seconds); `asyncio.sleep(1)` advances time by exactly one second.
-/

namespace Lowkey

/-- A Python runtime value, as far as this program manipulates them:
strings, ints, bools, lists, and string-keyed dicts. -/
inductive PVal where
  | pstr : String → PVal
  | pint : Int → PVal
  | pbool : Bool → PVal
  | plist : List PVal → PVal
  | pdict : List (String × PVal) → PVal

/-- `d.get(k)` on a Python dict: value of the first binding of `k`. -/
def alookup {α : Type} : List (String × α) → String → Option α
  | [], _ => none
  | p :: l, k => if p.1 = k then some p.2 else alookup l k

/-- `d[k] = v` on a Python dict: overwrite the binding in place if the key is
present, otherwise append it.  (The dicts the program builds have unique
keys, so updating the first binding is the Python behavior.) -/
def alset {α : Type} : List (String × α) → String → α → List (String × α)
  | [], k, v => [(k, v)]
  | p :: l, k, v => if p.1 = k then (k, v) :: l else p :: alset l k v

/-- `d1 | d2` on two Python dicts: keys of `d1` first (values overridden by
`d2` where present), then the keys of `d2` that are new. -/
def pyDictMerge (a b : List (String × PVal)) : List (String × PVal) :=
  a.map (fun p => (p.1, (alookup b p.1).getD p.2)) ++
    b.filter (fun p => (alookup a p.1).isNone)

/-- Python `x | y` on `PVal`s: defined for dict | dict, a `TypeError`
otherwise (in particular for list | dict). -/
def pyOr : PVal → PVal → Except String PVal
  | .pdict a, .pdict b => .ok (.pdict (pyDictMerge a b))
  | _, _ => .error "TypeError: unsupported operand type(s) for |"

/-- `models/user.py` `User`: pydantic model of one identity.  `cookies` is
declared `list[dict]` there, so it is a list of string-keyed cookie dicts. -/
structure User where
  proxy_ip : String
  fingerprint : List (String × PVal)
  user_agent : String
  user_id : Int
  user_data : List (String × PVal)
  cookies : List (List (String × PVal))

/-- `User.session_id`: the string `"session-{user_id}"`. -/
def User.session_id (u : User) : String :=
  "session-" ++ toString u.user_id

/-- Python `str.replace` on character lists: replace all leftmost
non-overlapping occurrences of `pat` by `repl`.  The fuel argument is
instantiated with the length of the scanned list, which is enough because
every step consumes at least one character.  (Structural stand-in for
`String.replace`, whose well-founded recursion the kernel cannot
evaluate.) -/
def replaceChars (pat repl : List Char) : Nat → List Char → List Char
  | _, [] => []
  | 0, s => s
  | fuel + 1, c :: s =>
      if pat.isPrefixOf (c :: s) then
        repl ++ replaceChars pat repl fuel ((c :: s).drop pat.length)
      else
        c :: replaceChars pat repl fuel s

/-- Python `s.replace(pat, repl)` for the non-empty patterns this program
uses (with an empty pattern the string is returned unchanged). -/
def pyReplace (s pat repl : String) : String :=
  if pat.toList.isEmpty then s
  else ⟨replaceChars pat.toList repl.toList s.toList.length s.toList⟩

/-- Accumulate decimal digits; `none` as soon as a non-digit appears. -/
def digitsToNat (acc : Nat) : List Char → Option Nat
  | [] => some acc
  | c :: cs =>
      if c.isDigit then digitsToNat (acc * 10 + (c.toNat - '0'.toNat)) cs
      else none

/-- Python `int(s)` restricted to the forms arising here: an optional minus
sign followed by at least one decimal digit; anything else raises
`ValueError`. -/
def parseInt : List Char → Option Int
  | [] => none
  | '-' :: cs =>
      if cs.isEmpty then none
      else (digitsToNat 0 cs).map (fun n => -(n : Int))
  | cs => (digitsToNat 0 cs).map (fun n => (n : Int))

/-- `User.id_from_session_id`: `int(session_id.replace("session-", ""))`;
`int()` raises `ValueError` on a non-numeric remainder. -/
def id_from_session_id (sid : String) : Except String Int :=
  match parseInt (pyReplace sid "session-" "").toList with
  | some n => .ok n
  | none => .error "ValueError: invalid literal for int()"

/-- `components/session.py` `Session`: crawlee session state as this program
uses it.  `userData` is the session's `user_data` dict, `cookies` its cookie
jar (a list of string-keyed cookie dicts, as handed over from
`User.cookies`).  `retired` is crawlee's retirement flag: within this core
it is the only thing that makes a session unusable (`Session.retire()` is
the single mutation of usability, per the spec "`usable` becomes `false`
only via explicit retirement"). -/
structure Session where
  id : String
  userData : List (String × PVal)
  cookies : List (List (String × PVal))
  retired : Bool

/-- Modelled from the spec: crawlee's `Session.is_usable` (not under `src/`)
restricted to the one cause this core exercises — "`usable` becomes `false`
only via explicit retirement (never resurrected)". -/
def Session.is_usable (s : Session) : Bool :=
  !s.retired

/-- Modelled from the spec: crawlee's `Session.retire()` (not under `src/`) —
"`retire(session_id)`: marks a session unusable". -/
def Session.retire (s : Session) : Session :=
  { s with retired := true }

/-- A session as crawlee constructs it fresh: empty `user_data`, empty
cookie jar, not retired. -/
def Session.fresh (id : String) : Session :=
  { id := id, userData := [], cookies := [], retired := false }

/-- `Session.phase` property: `self.user_data.get("phase", "FINAL")`. -/
def Session.phase (s : Session) : PVal :=
  (alookup s.userData "phase").getD (.pstr "FINAL")

/-- Python `x == "lit"` for an arbitrary value `x`: true only when `x` is
that very string. -/
def PVal.eqStr : PVal → String → Bool
  | .pstr s, t => s = t
  | _, _ => false

/-- `Session.is_in_discovery_phase`: `self.phase == "DISCOVERY"`. -/
def Session.is_in_discovery_phase (s : Session) : Bool :=
  s.phase.eqStr "DISCOVERY"

/-- `Session.turn_to_final_phase`: `self.user_data["phase"] = "FINAL"`. -/
def Session.turn_to_final_phase (s : Session) : Session :=
  { s with userData := alset s.userData "phase" (.pstr "FINAL") }

/-- `Session.turn_to_discovery_phase`:
`self.user_data["phase"] = "DISCOVERY"`. -/
def Session.turn_to_discovery_phase (s : Session) : Session :=
  { s with userData := alset s.userData "phase" (.pstr "DISCOVERY") }

/-- `SessionPool` mutable state: the (string-keyed, insertion-ordered)
session map of `self._state`, the `last_used` timestamp dict, and the
`regen_time` cooldown in seconds. -/
structure PoolState where
  sessions : List (String × Session)
  lastUsed : List (String × ℚ)
  regenTime : ℚ

/-- The comprehension inside `SessionPool._get_random_rested_session`: the
sessions of the pool whose `id` is absent from `last_used` or whose elapsed
time since last use strictly exceeds `regen_time`. -/
def restedSessions (st : PoolState) (now : ℚ) : List Session :=
  (st.sessions.map Prod.snd).filter (fun session =>
    match alookup st.lastUsed session.id with
    | none => true
    | some t => decide (now - t > st.regenTime))

/-- The errors `SessionPool` acquisition can raise: the `ValueError` on an
empty pool and the `TimeoutError` of the 30-minute wait. -/
inductive PoolError where
  | noSessions
  | timeout
deriving DecidableEq, Repr

/-- `SessionPool._get_random_rested_session`: raise `ValueError` if the pool
map is empty; otherwise `None` when no session is rested, else
`random.choice` over the rested list — modelled by indexing with an
arbitrary `choice` modulo the list length, so any member can be the one
chosen. -/
def getRandomRestedSession (st : PoolState) (now : ℚ) (choice : Nat) :
    Except PoolError (Option Session) :=
  if st.sessions.isEmpty then
    .error .noSessions
  else
    match (restedSessions st now).get?
        (choice % (restedSessions st now).length) with
    | none => .ok none
    | some s => .ok (some s)

/-- `SessionPool.get_random_rested_session`: poll `_get_random_rested_session`
starting at `counter`, sleeping exactly one second between attempts (so the
attempt with counter `n` happens at time `t0 + n`), and raise `TimeoutError`
once the elapsed wait exceeds `30 * 60` seconds.  Returns the session
together with the counter at which it was found. -/
def getRandomRestedSessionFrom (st : PoolState) (t0 : ℚ) (choice : Nat → Nat)
    (counter : Nat) : Except PoolError (Session × Nat) :=
  match getRandomRestedSession st (t0 + counter) (choice counter) with
  | .error e => .error e
  | .ok (some s) => .ok (s, counter)
  | .ok none =>
      if 30 * 60 < counter + 1 then .error .timeout
      else getRandomRestedSessionFrom st t0 choice (counter + 1)
termination_by 30 * 60 + 1 - counter

/-- `self.last_used[session.id] = datetime.now(UTC)`. -/
def touch (st : PoolState) (sid : String) (now : ℚ) : PoolState :=
  { st with lastUsed := alset st.lastUsed sid now }

/-- Modelled from the spec: crawlee's `SessionPool._remove_retired_sessions`
(not under `src/`) — "the pool purges retired sessions"; the purge keeps
exactly the usable sessions. -/
def removeRetiredSessions (st : PoolState) : PoolState :=
  { st with sessions := st.sessions.filter (fun p => p.2.is_usable) }

/-- `SessionPool.get_session`: take a random rested session; if it is usable
record the use and return it; otherwise purge retired sessions and select
exactly once more (recording the use of whatever comes back).  The second
argument of the result is the pool state after the recorded use. -/
def get_session (st : PoolState) (t0 : ℚ) (c1 c2 : Nat → Nat) :
    Except PoolError (Session × PoolState) :=
  match getRandomRestedSessionFrom st t0 c1 0 with
  | .error e => .error e
  | .ok (s, n) =>
      if s.is_usable then
        .ok (s, touch st s.id (t0 + n))
      else
        match getRandomRestedSessionFrom (removeRetiredSessions st)
            (t0 + n) c2 0 with
        | .error e => .error e
        | .ok (s2, m) =>
            .ok (s2, touch (removeRetiredSessions st) s2.id (t0 + n + m))

/-- `SessionPool.get_session_by_id`: look the session up in the map, return
`None` when absent or unusable, otherwise record `now` as its last use and
return it (paired with the updated pool state). -/
def get_session_by_id (st : PoolState) (session_id : String) (now : ℚ) :
    Option Session × PoolState :=
  match alookup st.sessions session_id with
  | none => (none, st)
  | some session =>
      if !session.is_usable then (none, st)
      else (some session, touch st session.id now)

/-- The session built for one user inside
`SessionPool.create_sessions_from_users`: id `user.session_id`, `user_data`
the dict literal `proxy_url`/`user_agent`/`cookies` merged (`|`) with
`user.user_data`, and the cookie jar seeded from `user.cookies`. -/
def sessionFromUser (u : User) : Session :=
  { id := u.session_id,
    userData :=
      pyDictMerge
        [("proxy_url", .pstr u.proxy_ip),
         ("user_agent", .pstr u.user_agent),
         ("cookies", .plist (u.cookies.map .pdict))]
        u.user_data,
    cookies := u.cookies,
    retired := false }

/-- `SessionPool.create_sessions_from_users`: the dict comprehension
`{user.session_id: Session(...) for user in users}` as an insertion-ordered
association list. -/
def create_sessions_from_users (users : List User) : List (String × Session) :=
  users.map (fun u => (u.session_id, sessionFromUser u))

/-- `SessionPool.__init__`: sized to the users, empty `last_used`, sessions
created from the users. -/
def mkSessionPool (users : List User) (regen_time : ℚ) : PoolState :=
  { sessions := create_sessions_from_users users,
    lastUsed := [],
    regenTime := regen_time }

/-- The dict comprehension `{cookie["name"]: cookie["value"] for cookie in
session.cookies}`: `cookie["name"]` must exist and be a string (it becomes
a dict key), `cookie["value"]` must exist; a missing key is a `KeyError`. -/
def cookieNameValue (c : List (String × PVal)) : Except String (String × PVal) :=
  match alookup c "name", alookup c "value" with
  | some (.pstr n), some v => .ok (n, v)
  | some _, some _ => .error "TypeError: cookie name is not a string"
  | _, _ => .error "KeyError"

/-- pydantic validation of a `str` field. -/
def asStr : PVal → Except String String
  | .pstr s => .ok s
  | _ => .error "ValidationError: str expected"

/-- pydantic validation of a `dict` field. -/
def asDict : PVal → Except String (List (String × PVal))
  | .pdict d => .ok d
  | _ => .error "ValidationError: dict expected"

/-- pydantic validation of a `list[dict]` field. -/
def asListOfDicts : PVal → Except String (List (List (String × PVal)))
  | .plist xs =>
      xs.mapM (fun x =>
        match x with
        | .pdict d => Except.ok d
        | _ => Except.error "ValidationError: dict expected")
  | _ => .error "ValidationError: list expected"

/-- The keys `create_users_from_sessions` strips from `user_data` when
writing an identity back. -/
def reservedUserDataKeys : List String :=
  ["proxy_url", "user_agent", "fingerprint", "cookies", "phase"]

/-- The body of `SessionPool.create_users_from_sessions` for one session:
parse the numeric id back out of the session id, read `proxy_url`,
`user_agent` and `fingerprint` from `user_data` (with defaults `""`/`{}`),
merge (`|`) the `cookies` entry of `user_data` with the name→value dict of
the session's cookie jar, strip the reserved keys from `user_data`, and
validate the resulting `User` as pydantic would. -/
def userFromSession (s : Session) : Except String User := do
  let uid ← id_from_session_id s.id
  let proxy_ip ← asStr ((alookup s.userData "proxy_url").getD (.pstr ""))
  let user_agent ← asStr ((alookup s.userData "user_agent").getD (.pstr ""))
  let fingerprint ← asDict ((alookup s.userData "fingerprint").getD (.pdict []))
  let jar ← s.cookies.mapM cookieNameValue
  let merged ← pyOr ((alookup s.userData "cookies").getD (.pdict []))
      (.pdict jar)
  let cookies ← asListOfDicts merged
  .ok { user_id := uid,
        proxy_ip := proxy_ip,
        user_agent := user_agent,
        fingerprint := fingerprint,
        cookies := cookies,
        user_data :=
          s.userData.filter (fun p => !(reservedUserDataKeys.contains p.1)) }

/-- `SessionPool.create_users_from_sessions`: one `User` per session of the
pool, in map order; the first raised exception aborts the whole call. -/
def create_users_from_sessions (st : PoolState) : Except String (List User) :=
  (st.sessions.map Prod.snd).mapM userFromSession

/-- `work.py` `WorkUnit`. -/
structure WorkUnit where
  url : String
  method : String
  payload : Option (List (String × PVal))

/-- `user_data["work_type"]` of a request built by `create_requests`. -/
inductive WorkType where
  | BEFORE_START
  | WORK
deriving DecidableEq, Repr

/-- The fields of a crawlee `Request` that this program sets or reads. -/
structure Request where
  url : String
  method : String
  label : Option String
  session_id : Option String
  unique_key : Option String
  payload : Option (List (String × PVal))
  work_type : Option WorkType
  session_rotation_count : Option Nat
  no_retry : Bool

/-- One warm-up request of `create_requests`: `GET`, label `"visit"`, pinned
to the user's session id, unique key `"visit_{session_id}{randint}"` (the
`i`-th draw of the random stream `rng`, `randint(0, 10000)`). -/
def beforeStartRequest (rng : Nat → Nat) (i : Nat) (u : User) (url : String) :
    Request :=
  { url := url,
    method := "GET",
    label := some "visit",
    session_id := some u.session_id,
    unique_key := some ("visit_" ++ u.session_id ++ toString (rng i % 10001)),
    payload := none,
    work_type := some .BEFORE_START,
    session_rotation_count := none,
    no_retry := false }

/-- One work request of `create_requests` for the unit at index `i`:
round-robin pinned to `users[i % len(users)]`; with no users Python's
`i % 0` raises `ZeroDivisionError`.  `json.dumps(payload) if payload else
None` keeps the payload only when the dict is non-empty (Python truthiness). -/
def workRequest (users : List User) (handler_name : Option String) (i : Nat)
    (w : WorkUnit) : Except String Request :=
  match users.get? (i % users.length) with
  | none => .error "ZeroDivisionError: integer division or modulo by zero"
  | some u =>
      .ok { url := w.url,
            method := w.method,
            label := handler_name,
            session_id := some u.session_id,
            unique_key := none,
            payload :=
              match w.payload with
              | none => none
              | some d => if d.isEmpty then none else some d,
            work_type := some .WORK,
            session_rotation_count := none,
            no_retry := false }

/-- `work.py` `create_requests`: for every user and every warm-up URL one
`BEFORE_START` request (in user-major order), followed by one `WORK` request
per work unit assigned round-robin over the users. -/
def create_requests (work : List WorkUnit) (before_start_urls : List String)
    (users : List User) (handler_name : Option String) (rng : Nat → Nat) :
    Except String (List Request) := do
  let pairs := users.flatMap (fun u => before_start_urls.map (fun url => (u, url)))
  let befores := pairs.enum.map (fun p => beforeStartRequest rng p.1 p.2.1 p.2.2)
  let works ← work.enum.mapM (fun p => workRequest users handler_name p.1 p.2)
  return befores ++ works

/-- The outcome of running one unit through the context pipeline and
handler, as classified by the `except` chain of
`BeautifulSoupCrawler.__run_task_function`: either the `try` body completed,
or one of the five caught exception classes was raised, or some other
(unclassified) exception was raised. -/
inductive Outcome where
  | success
  | requestCollision
  | requestHandlerError
  | sessionError
  | pipelineInterrupted
  | pipelineInitError
  | unclassified
deriving DecidableEq, Repr

/-- The externally visible actions `__run_task_function` performs for one
unit: calls on the request manager (`mark_request_as_handled`,
`reclaim_request`), the statistics counters it bumps, `mark_good` on the
session, and whether the exception was re-raised (aborting the run). -/
structure Effects where
  markedHandled : Bool
  reclaimed : Bool
  failureRecorded : Bool
  retryRecorded : Bool
  finishRecorded : Bool
  sessionMarkedGood : Bool
  propagated : Bool
deriving DecidableEq, Repr

/-- No externally visible action. -/
def noEffects : Effects :=
  { markedHandled := false, reclaimed := false, failureRecorded := false,
    retryRecorded := false, finishRecorded := false,
    sessionMarkedGood := false, propagated := false }

/-- Modelled from the spec: crawlee's `BasicCrawler._should_retry_request`
for a `SessionError` (not under `src/`) — "Retry bound: a configurable
maximum number of session rotations per unit; once exhausted, the unit is
marked handled-and-failed rather than requeued indefinitely".  Retry while
the unit's rotation count (`None` reading as 0) is below the configured
maximum and retrying is not suppressed on the request. -/
def shouldRetrySessionError (maxRotations : Nat) (r : Request) : Bool :=
  !r.no_retry && decide (r.session_rotation_count.getD 0 < maxRotations)

/-- Modelled from the spec: crawlee's `BasicCrawler._handle_request_error`
(not under `src/`) — "record error via error-handler collaborator, mark
handled as terminal failure", no requeue. -/
def handleRequestError (r : Request) (s : Session) :
    Request × Session × Effects :=
  (r, s,
    { noEffects with markedHandled := true, failureRecorded := true })

/-- The outcome dispatch of `BeautifulSoupCrawler.__run_task_function`
(the `try`/`except` chain, lines 117–231):
* success: commit, mark handled, `mark_good` the session if usable, record
  the processing finish;
* `RequestCollisionError`: set `no_retry` and delegate to the request-error
  handler;
* `RequestHandlerError`: delegate the wrapped error to the request-error
  handler;
* `SessionError`: if the rotation budget remains, retire the session,
  increment the unit's `session_rotation_count`, reclaim the unit and count
  a retry; otherwise mark handled, record the failure;
* `ContextPipelineInterruptedError`: mark handled only;
* `ContextPipelineInitializationError`: delegate to the request-error
  handler;
* anything else: log and re-`raise` — nothing is marked, reclaimed or
  retried, and the exception propagates out of the task function. -/
def runTaskStep (maxRotations : Nat) (o : Outcome) (r : Request)
    (s : Session) : Request × Session × Effects :=
  match o with
  | .success =>
      (r, s,
        { noEffects with markedHandled := true, finishRecorded := true,
                         sessionMarkedGood := s.is_usable })
  | .requestCollision =>
      handleRequestError { r with no_retry := true } s
  | .requestHandlerError =>
      handleRequestError r s
  | .sessionError =>
      if shouldRetrySessionError maxRotations r then
        ({ r with session_rotation_count :=
              some (r.session_rotation_count.getD 0 + 1) },
         s.retire,
         { noEffects with reclaimed := true, retryRecorded := true })
      else
        (r, s,
          { noEffects with markedHandled := true, failureRecorded := true })
  | .pipelineInterrupted =>
      (r, s, { noEffects with markedHandled := true })
  | .pipelineInitError =>
      handleRequestError r s
  | .unclassified =>
      (r, s, { noEffects with propagated := true })

/-! ## Helper lemmas -/

theorem alookup_alset_self {α : Type} (l : List (String × α)) (k : String)
    (v : α) : alookup (alset l k v) k = some v := by
  induction l with
  | nil => simp [alset, alookup]
  | cons p t ih =>
    by_cases h : p.1 = k
    · simp [alset, alookup, h]
    · simp [alset, alookup, h, ih]

theorem alset_alset_self {α : Type} (l : List (String × α)) (k : String)
    (v w : α) : alset (alset l k v) k w = alset l k w := by
  induction l with
  | nil => simp [alset]
  | cons p t ih =>
    by_cases h : p.1 = k
    · simp [alset, h]
    · simp [alset, h, ih]

theorem PVal.eqStr_true_iff (p : PVal) (t : String) :
    p.eqStr t = true ↔ p = .pstr t := by
  cases p <;> simp [PVal.eqStr]

/-! ## Sample data shared by the concrete witnesses -/

/-- A sample identity. -/
def sampleUser : User :=
  { proxy_ip := "1.2.3.4", fingerprint := [], user_agent := "UA",
    user_id := 1, user_data := [], cookies := [] }

/-- A fresh usable session with id `"session-1"`. -/
def sampleSession : Session :=
  Session.fresh "session-1"

/-- A one-session pool with cooldown 3 s whose session was never used. -/
def sampleFreshPool : PoolState :=
  { sessions := [("session-1", sampleSession)],
    lastUsed := [], regenTime := 3 }

/-- A one-session pool with cooldown 3 s whose session was last used at
`t = 0`. -/
def samplePool3 : PoolState :=
  { sessions := [("session-1", sampleSession)],
    lastUsed := [("session-1", 0)], regenTime := 3 }

/-- A one-session pool whose cooldown is far longer than the 30-minute wait
budget, with the session last used at `t = 0`. -/
def sampleBusyPool : PoolState :=
  { sessions := [("session-1", sampleSession)],
    lastUsed := [("session-1", 0)], regenTime := 10000000 }

/-- A request with one session rotation already performed. -/
def sampleRequestRot1 : Request :=
  { url := "http://example.com", method := "GET", label := none,
    session_id := some "session-1", unique_key := none, payload := none,
    work_type := some .WORK, session_rotation_count := some 1,
    no_retry := false }

/-- A request whose two-rotation budget is exhausted. -/
def sampleRequestRot2 : Request :=
  { sampleRequestRot1 with session_rotation_count := some 2 }

/-! ## C8 — phase state machine -/

/-- **C8**: a freshly created session's phase is `FINAL`; the discovery and
finalize transitions are unconditional and idempotent (`DISCOVERY` resp.
`FINAL` afterwards, whatever the prior phase, and running the same
transition twice equals running it once); `is_in_discovery_phase` is true
exactly when the phase is `DISCOVERY`. -/
theorem phase_machine (id : String) (s : Session) :
    (Session.fresh id).phase = .pstr "FINAL" ∧
    s.turn_to_discovery_phase.phase = .pstr "DISCOVERY" ∧
    s.turn_to_final_phase.phase = .pstr "FINAL" ∧
    s.turn_to_discovery_phase.turn_to_discovery_phase =
      s.turn_to_discovery_phase ∧
    s.turn_to_final_phase.turn_to_final_phase = s.turn_to_final_phase ∧
    (s.is_in_discovery_phase = true ↔ s.phase = .pstr "DISCOVERY") := by
  refine ⟨rfl, ?_, ?_, ?_, ?_, ?_⟩
  · simp [Session.turn_to_discovery_phase, Session.phase, alookup_alset_self]
  · simp [Session.turn_to_final_phase, Session.phase, alookup_alset_self]
  · simp [Session.turn_to_discovery_phase, alset_alset_self]
  · simp [Session.turn_to_final_phase, alset_alset_self]
  · exact PVal.eqStr_true_iff s.phase "DISCOVERY"

/-! ## C5 — unclassified exceptions propagate -/

/-- **C5**: an unclassified exception is never handled locally — the task
step leaves the request and session untouched, performs none of the
externally visible actions (no mark-handled, no reclaim, no retry, no
failure record), and re-raises so the exception propagates and aborts the
run; moreover the unclassified outcome is the only one that propagates. -/
theorem unclassified_propagates (maxRotations : Nat) (r : Request)
    (s : Session) :
    runTaskStep maxRotations .unclassified r s =
      (r, s, { noEffects with propagated := true }) ∧
    ∀ o : Outcome,
      (runTaskStep maxRotations o r s).2.2.propagated =
        decide (o = .unclassified) := by
  refine ⟨rfl, ?_⟩
  intro o
  cases o
  case sessionError =>
    by_cases hc : shouldRetrySessionError maxRotations r = true
    · simp only [runTaskStep, if_pos hc]
      rfl
    · simp only [runTaskStep, if_neg hc]
      rfl
  all_goals rfl

/-! ## C10 — empty pool raises immediately -/

/-- **C10**: with an empty session map, acquisition fails with the
`ValueError` (`noSessions`) already on the selection attempt at counter 0 —
the poll loop never sleeps, never retries, and never reaches the 30-minute
`timeout` —  and `get_session` surfaces that same error. -/
theorem empty_pool_raises (st : PoolState) (t0 : ℚ) (c1 c2 : Nat → Nat)
    (h : st.sessions = []) :
    getRandomRestedSessionFrom st t0 c1 0 = .error .noSessions ∧
    get_session st t0 c1 c2 = .error .noSessions := by
  have hsel : getRandomRestedSession st (t0 + (0 : Nat)) (c1 0) =
      .error .noSessions := by
    simp [getRandomRestedSession, h]
  have hloop : getRandomRestedSessionFrom st t0 c1 0 = .error .noSessions := by
    unfold getRandomRestedSessionFrom
    rw [hsel]
  exact ⟨hloop, by simp [get_session, hloop]⟩

/-- Witness for C10 on a concrete empty pool. -/
theorem empty_pool_raises_witness :
    getRandomRestedSessionFrom
        { sessions := [], lastUsed := [], regenTime := 3 } 0 (fun _ => 0) 0 =
      .error .noSessions ∧
    get_session { sessions := [], lastUsed := [], regenTime := 3 } 0
        (fun _ => 0) (fun _ => 0) =
      .error .noSessions :=
  empty_pool_raises { sessions := [], lastUsed := [], regenTime := 3 } 0
    (fun _ => 0) (fun _ => 0) rfl

/-! ## C4 — session-level error: bounded rotation -/

/-- **C4**: on a session-level error with retrying not suppressed, if the
rotation budget remains the step retires the current session (making it
unusable), increments the unit's `session_rotation_count` by exactly one and
reclaims (requeues) the unit without marking it handled; once the budget is
exhausted the unit is instead marked handled and recorded as a failure, and
is not reclaimed again. -/
theorem session_error_policy (maxRotations : Nat) (r : Request) (s : Session)
    (hnr : r.no_retry = false) :
    (r.session_rotation_count.getD 0 < maxRotations →
      runTaskStep maxRotations .sessionError r s =
        ({ r with session_rotation_count :=
              some (r.session_rotation_count.getD 0 + 1) },
         s.retire,
         { noEffects with reclaimed := true, retryRecorded := true }) ∧
      s.retire.is_usable = false) ∧
    (maxRotations ≤ r.session_rotation_count.getD 0 →
      runTaskStep maxRotations .sessionError r s =
        (r, s,
          { noEffects with markedHandled := true,
                           failureRecorded := true })) := by
  constructor
  · intro hlt
    refine ⟨?_, by simp [Session.retire, Session.is_usable]⟩
    simp [runTaskStep, shouldRetrySessionError, hnr, hlt]
  · intro hge
    simp [runTaskStep, shouldRetrySessionError, hnr, Nat.not_lt.mpr hge]

/-- Witness for C4 with `max_rotations = 2`: a unit at rotation count 1 is
rotated (count becomes 2, session retired, unit reclaimed); a unit at
rotation count 2 is marked handled-failed and not reclaimed. -/
theorem session_error_policy_witness :
    (runTaskStep 2 .sessionError sampleRequestRot1 sampleSession =
      ({ sampleRequestRot1 with session_rotation_count := some 2 },
       sampleSession.retire,
       { noEffects with reclaimed := true, retryRecorded := true }) ∧
     sampleSession.retire.is_usable = false) ∧
    runTaskStep 2 .sessionError sampleRequestRot2 sampleSession =
      (sampleRequestRot2, sampleSession,
       { noEffects with markedHandled := true, failureRecorded := true }) :=
  ⟨(session_error_policy 2 sampleRequestRot1 sampleSession rfl).1
      (by decide),
   (session_error_policy 2 sampleRequestRot2 sampleSession rfl).2
      (by decide)⟩

/-! ## C2 — cooldown eligibility -/

/-- **C2**: a session of the pool is in the candidate set of the random
selection at time `now` iff it has never been used (no `last_used` entry) or
`now - last_used[id]` strictly exceeds the cooldown `regen_time`. -/
theorem rested_iff (st : PoolState) (now : ℚ) (s : Session)
    (hs : s ∈ st.sessions.map Prod.snd) :
    s ∈ restedSessions st now ↔
      (alookup st.lastUsed s.id = none ∨
        ∃ t, alookup st.lastUsed s.id = some t ∧ now - t > st.regenTime) := by
  unfold restedSessions
  rw [List.mem_filter]
  constructor
  · rintro ⟨-, hc⟩
    cases h : alookup st.lastUsed s.id with
    | none => exact .inl rfl
    | some t =>
      rw [h] at hc
      exact .inr ⟨t, rfl, of_decide_eq_true hc⟩
  · intro h
    refine ⟨hs, ?_⟩
    rcases h with h | ⟨t, ht, hgt⟩
    · rw [h]
    · rw [ht]
      exact decide_eq_true hgt

/-- Witness for C2, the spec's 3-second example: the session of
`samplePool3` was used at `t = 0` with cooldown 3 s; it is in the candidate
set at `t = 3.01` and not in it at `t = 3`. -/
theorem rested_iff_witness :
    sampleSession ∈ restedSessions samplePool3 (301 / 100 : ℚ) ∧
    sampleSession ∉ restedSessions samplePool3 (3 : ℚ) := by
  have hmem : sampleSession ∈ samplePool3.sessions.map Prod.snd := by
    simp [samplePool3]
  constructor
  · exact (rested_iff samplePool3 (301 / 100) sampleSession hmem).mpr
      (.inr ⟨0, rfl, by norm_num [samplePool3]⟩)
  · intro hin
    rcases (rested_iff samplePool3 3 sampleSession hmem).mp hin with
      h | ⟨t, ht, hgt⟩
    · exact Option.noConfusion h
    · have : t = (0 : ℚ) := by
        have : some (0 : ℚ) = some t := ht
        exact (Option.some.injEq _ _ ▸ this).symm
      rw [this] at hgt
      norm_num [samplePool3] at hgt

/-! ## C9 — sticky lookup restarts the cooldown -/

/-- **C9**: whenever `get_session_by_id` returns a session, that session is
usable, the lookup time is recorded as its `last_used` timestamp in the
resulting pool state, and for the next `regen_time` seconds (any `t` with
`t - now ≤ regen_time`) the session is not in the candidate set of the
random selection. -/
theorem get_session_by_id_touches (st : PoolState) (sid : String) (now : ℚ)
    (s : Session) (st' : PoolState)
    (h : get_session_by_id st sid now = (some s, st')) :
    s.is_usable = true ∧
    alookup st'.lastUsed s.id = some now ∧
    ∀ t : ℚ, t - now ≤ st.regenTime → s ∉ restedSessions st' t := by
  unfold get_session_by_id at h
  split at h
  · cases h
  · rename_i session hl
    split at h
    · cases h
    · rename_i hu
      have hus : session.is_usable = true := by
        by_contra hne
        exact hu (by simp [Bool.eq_false_iff.mpr hne])
      have hss : some session = some s := congrArg Prod.fst h
      have hse : session = s := Option.some.inj hss
      have hst : st' = touch st session.id now := (congrArg Prod.snd h).symm
      subst hst
      rw [← hse]
      refine ⟨hus, ?_, ?_⟩
      · exact alookup_alset_self ..
      · intro t hle hin
        have hc := (List.mem_filter.mp hin).2
        rw [show alookup (touch st session.id now).lastUsed session.id =
          some now from alookup_alset_self ..] at hc
        exact absurd (of_decide_eq_true hc) (not_lt.mpr hle)

/-- Witness for C9: looking `"session-1"` up in `samplePool3` at `t = 5`
returns the session, stamps `last_used = 5`, and the session is not
selectable at `t = 6` (one second later, cooldown 3 s). -/
theorem get_session_by_id_touches_witness :
    sampleSession.is_usable = true ∧
    alookup (get_session_by_id samplePool3 "session-1" 5).2.lastUsed
        sampleSession.id = some 5 ∧
    sampleSession ∉
      restedSessions (get_session_by_id samplePool3 "session-1" 5).2 6 := by
  have h := get_session_by_id_touches samplePool3 "session-1" 5
    sampleSession (get_session_by_id samplePool3 "session-1" 5).2 rfl
  exact ⟨h.1, h.2.1, h.2.2 6 (by norm_num [samplePool3])⟩

/-! ## C1 — `get_session` returns a rested, usable session -/

theorem getRandomRestedSession_ok_some (st : PoolState) (now : ℚ)
    (choice : Nat) (s : Session)
    (h : getRandomRestedSession st now choice = .ok (some s)) :
    s ∈ restedSessions st now := by
  unfold getRandomRestedSession at h
  split at h
  · exact absurd h (by simp)
  · split at h
    · exact absurd h (by simp)
    · rename_i s' hg
      obtain rfl : s' = s := by
        injection h with h'
        injection h' with h''
      exact List.get?_mem hg

theorem getRandomRestedSessionFrom_ok_rested (st : PoolState) (t0 : ℚ)
    (choice : Nat → Nat) :
    ∀ fuel counter s n, 30 * 60 + 1 - counter ≤ fuel →
      getRandomRestedSessionFrom st t0 choice counter = .ok (s, n) →
      s ∈ restedSessions st (t0 + n) := by
  intro fuel
  induction fuel with
  | zero =>
    intro counter s n hf h
    unfold getRandomRestedSessionFrom at h
    split at h
    · exact absurd h (by simp)
    · rename_i s' hsel
      injection h with h'
      injection h' with h1 h2
      rw [← h1, ← h2]
      exact getRandomRestedSession_ok_some st (t0 + counter) (choice counter)
        s' hsel
    · split at h
      · exact absurd h (by simp)
      · omega
  | succ fuel ih =>
    intro counter s n hf h
    unfold getRandomRestedSessionFrom at h
    split at h
    · exact absurd h (by simp)
    · rename_i s' hsel
      injection h with h'
      injection h' with h1 h2
      rw [← h1, ← h2]
      exact getRandomRestedSession_ok_some st (t0 + counter) (choice counter)
        s' hsel
    · split at h
      · exact absurd h (by simp)
      · rename_i hcc
        exact ih (counter + 1) s n (by omega) h

theorem rested_removeRetired_usable (st : PoolState) (now : ℚ) (s : Session)
    (h : s ∈ restedSessions (removeRetiredSessions st) now) :
    s.is_usable = true := by
  have hmem := (List.mem_filter.mp h).1
  unfold removeRetiredSessions at hmem
  simp only [List.mem_map] at hmem
  obtain ⟨p, hp, rfl⟩ := hmem
  exact (List.mem_filter.mp hp).2

/-- **C1**: whenever `get_session` returns a session, that session is
usable, and at the very acquisition instant that the call records as the
session's `last_used` timestamp in the returned pool state the session was
rested — a member of the cooldown-filtered candidate set of the pool it was
selected from: the original pool, or, when the first randomly chosen
session was unusable, the pool obtained by the one purge of retired
sessions that precedes the single repeated selection (in which case the
returned state is that purged pool with the use recorded). -/
theorem get_session_rested_usable (st : PoolState) (t0 : ℚ) (c1 c2 : Nat → Nat)
    (s : Session) (st' : PoolState)
    (h : get_session st t0 c1 c2 = .ok (s, st')) :
    s.is_usable = true ∧
    ∃ now, alookup st'.lastUsed s.id = some now ∧
      ((s ∈ restedSessions st now ∧ st' = touch st s.id now) ∨
        (s ∈ restedSessions (removeRetiredSessions st) now ∧
          st' = touch (removeRetiredSessions st) s.id now)) := by
  unfold get_session at h
  split at h
  · exact absurd h (by simp)
  · rename_i s1 n hloop1
    split at h
    · rename_i hu
      injection h with h'
      injection h' with h1 h2
      rw [← h1, ← h2]
      refine ⟨hu, t0 + n, ?_, .inl ⟨?_, rfl⟩⟩
      · exact alookup_alset_self ..
      · exact getRandomRestedSessionFrom_ok_rested st t0 c1 (30 * 60 + 1) 0
          s1 n (by omega) hloop1
    · split at h
      · exact absurd h (by simp)
      · rename_i s2 m hloop2
        injection h with h'
        injection h' with h1 h2
        rw [← h1, ← h2]
        have hmem := getRandomRestedSessionFrom_ok_rested
          (removeRetiredSessions st) (t0 + n) c2 (30 * 60 + 1) 0 s2 m
          (by omega) hloop2
        refine ⟨rested_removeRetired_usable _ _ _ hmem,
          t0 + n + m, ?_, .inr ⟨hmem, rfl⟩⟩
        exact alookup_alset_self ..

/-- Witness for C1: acquiring from `sampleFreshPool` (its session never
used) at `t = 4` succeeds; the returned session is usable, the returned
state records an acquisition timestamp for it, and the session was rested
at exactly that instant. -/
theorem get_session_rested_usable_witness :
    sampleSession.is_usable = true ∧
    ∃ now,
      alookup (touch sampleFreshPool sampleSession.id
          (4 + ((0 : Nat) : ℚ))).lastUsed sampleSession.id = some now ∧
      ((sampleSession ∈ restedSessions sampleFreshPool now ∧
          touch sampleFreshPool sampleSession.id (4 + ((0 : Nat) : ℚ)) =
            touch sampleFreshPool sampleSession.id now) ∨
        (sampleSession ∈
            restedSessions (removeRetiredSessions sampleFreshPool) now ∧
          touch sampleFreshPool sampleSession.id (4 + ((0 : Nat) : ℚ)) =
            touch (removeRetiredSessions sampleFreshPool) sampleSession.id
              now)) :=
  get_session_rested_usable sampleFreshPool 4 (fun _ => 0) (fun _ => 0)
    sampleSession
    (touch sampleFreshPool sampleSession.id (4 + ((0 : Nat) : ℚ)))
    (by unfold get_session getRandomRestedSessionFrom; rfl)

/-! ## C3 — the 30-minute wait budget -/

/-- **C3**: when no rested session appears at any of the one-second polls
within the 30-minute budget, the wait loop makes its attempt at counter `n`
at time `t0 + n` (one sleep of exactly 1 s between attempts), never returns
a session, and the whole acquisition — the loop and `get_session` with it —
fails with the `TimeoutError` once the elapsed wait exceeds `30 * 60`
seconds. -/
theorem wait_loop_times_out (st : PoolState) (t0 : ℚ) (choice : Nat → Nat)
    (hne : st.sessions ≠ [])
    (hrest : ∀ n : Nat, n ≤ 30 * 60 → restedSessions st (t0 + n) = []) :
    getRandomRestedSessionFrom st t0 choice 0 = .error .timeout ∧
    ∀ c2 : Nat → Nat, get_session st t0 choice c2 = .error .timeout := by
  have hsel : ∀ n : Nat, n ≤ 30 * 60 →
      getRandomRestedSession st (t0 + n) (choice n) = .ok none := by
    intro n hn
    unfold getRandomRestedSession
    rw [if_neg (by simpa [List.isEmpty_iff] using hne)]
    rw [hrest n hn]
    rfl
  have main : ∀ fuel counter, 30 * 60 - counter ≤ fuel → counter ≤ 30 * 60 →
      getRandomRestedSessionFrom st t0 choice counter = .error .timeout := by
    intro fuel
    induction fuel with
    | zero =>
      intro counter hf hc
      obtain rfl : counter = 30 * 60 := by omega
      unfold getRandomRestedSessionFrom
      rw [hsel _ (le_refl _)]
      show (if 30 * 60 < 30 * 60 + 1 then Except.error PoolError.timeout
        else getRandomRestedSessionFrom st t0 choice (30 * 60 + 1)) =
          .error .timeout
      rw [if_pos (by omega)]
    | succ fuel ih =>
      intro counter hf hc
      unfold getRandomRestedSessionFrom
      rw [hsel _ hc]
      show (if 30 * 60 < counter + 1 then Except.error PoolError.timeout
        else getRandomRestedSessionFrom st t0 choice (counter + 1)) =
          .error .timeout
      by_cases hcc : 30 * 60 < counter + 1
      · rw [if_pos hcc]
      · rw [if_neg hcc]
        exact ih (counter + 1) (by omega) (by omega)
  have hloop := main (30 * 60) 0 (by omega) (by omega)
  exact ⟨hloop, fun c2 => by simp [get_session, hloop]⟩

/-- Witness for C3: in `sampleBusyPool` (cooldown far beyond 30 minutes,
session used at `t = 0`) the wait starting at `t = 0` times out, and so does
the enclosing `get_session`. -/
theorem wait_loop_times_out_witness :
    getRandomRestedSessionFrom sampleBusyPool 0 (fun _ => 0) 0 =
      .error .timeout ∧
    get_session sampleBusyPool 0 (fun _ => 0) (fun _ => 0) =
      .error .timeout := by
  have h := wait_loop_times_out sampleBusyPool 0 (fun _ => 0)
    (by simp [sampleBusyPool]) ?_
  · exact ⟨h.1, h.2 (fun _ => 0)⟩
  · intro n hn
    simp [restedSessions, sampleBusyPool, sampleSession, Session.fresh,
      alookup]
    omega

/-! ## C6 — snapshot write-back crashes (code defect) -/

/-- **C6** (code defect): the claimed identity round-trip fails already for
one user.  On the pool built from the single identity `sampleUser`,
`create_users_from_sessions` returns no user list: its cookie merge
`session.user_data.get("cookies", {}) | {cookie["name"]: ... }` applies
Python `|` to the *list* that `create_sessions_from_users` stored under the
`"cookies"` key and a dict, which raises `TypeError` — so no snapshot with
merged cookies (nor any preserved `fingerprint`, which is not stored in the
session's `user_data` in the first place) is ever produced. -/
theorem create_users_from_sessions_type_error :
    create_users_from_sessions (mkSessionPool [sampleUser] 3) =
      .error "TypeError: unsupported operand type(s) for |" := rfl

/-! ## C7 — warm-up expansion -/

/-- A sample unit of work. -/
def sampleWorkUnit : WorkUnit :=
  { url := "http://example.com/w", method := "GET", payload := none }

/-- **C7** (counterexample): with an empty user list and a non-empty work
list, `create_requests` does not return any request list — the round-robin
index `users[i % len(users)]` divides by zero — so "for every list of `U`
users … create_requests returns exactly `U×B` requests tagged
`BEFORE_START` …" fails at `U = 0`. -/
theorem create_requests_no_users_raises :
    create_requests [sampleWorkUnit] [] [] none (fun _ => 0) =
      .error "ZeroDivisionError: integer division or modulo by zero" := rfl

theorem mapM_ok_of_forall_ok {α β : Type} (g : α → Except String β)
    (P : β → Prop) :
    ∀ l : List α, (∀ a ∈ l, ∃ b, g a = .ok b ∧ P b) →
      ∃ bs, l.mapM g = .ok bs ∧ ∀ b ∈ bs, P b := by
  intro l
  induction l with
  | nil => exact fun _ => ⟨[], rfl, by simp⟩
  | cons a t ih =>
    intro h
    obtain ⟨b, hb, hPb⟩ := h a (List.mem_cons_self a t)
    obtain ⟨bs, hbs, hPbs⟩ := ih (fun x hx => h x (List.mem_cons_of_mem a hx))
    refine ⟨b :: bs, ?_, ?_⟩
    · rw [List.mapM_cons, hb, hbs]
      rfl
    · intro x hx
      rcases List.mem_cons.mp hx with rfl | hx
      · exact hPb
      · exact hPbs x hx

/-- **C7** (amended): provided there is at least one user or the work list
is empty, `create_requests` returns a list that splits as `bs ++ ws` where
`bs` are exactly `U×B` `BEFORE_START` requests (one per identity per
warm-up URL, each pinned to that identity's session id) and `ws` are the
`WORK` requests — so every `BEFORE_START` request precedes every `WORK`
request. -/
theorem create_requests_spec (work : List WorkUnit) (urls : List String)
    (users : List User) (handler_name : Option String) (rng : Nat → Nat)
    (h : users ≠ [] ∨ work = []) :
    ∃ bs ws,
      create_requests work urls users handler_name rng = .ok (bs ++ ws) ∧
      bs.length = users.length * urls.length ∧
      (∀ r ∈ bs, r.work_type = some .BEFORE_START ∧ r.url ∈ urls ∧
        ∃ u ∈ users, r.session_id = some u.session_id) ∧
      (∀ r ∈ ws, r.work_type = some .WORK) := by
  have hwork : ∀ p ∈ work.enum,
      ∃ r, workRequest users handler_name p.1 p.2 = .ok r ∧
        r.work_type = some .WORK := by
    intro p hp
    rcases h with hne | rfl
    · have hlen : 0 < users.length := List.length_pos.mpr hne
      have hlt : p.1 % users.length < users.length := Nat.mod_lt _ hlen
      have hu : users.get? (p.1 % users.length) =
          some (users[p.1 % users.length]) := by
        rw [List.get?_eq_getElem?]
        exact List.getElem?_eq_getElem hlt
      unfold workRequest
      rw [hu]
      exact ⟨_, rfl, rfl⟩
    · simp at hp
  obtain ⟨ws, hws, hwsP⟩ := mapM_ok_of_forall_ok
    (fun p => workRequest users handler_name p.1 p.2)
    (fun r => r.work_type = some .WORK) work.enum hwork
  refine ⟨(users.flatMap fun u => urls.map fun url => (u, url)).enum.map
      (fun p => beforeStartRequest rng p.1 p.2.1 p.2.2), ws, ?_, ?_, ?_, hwsP⟩
  · unfold create_requests
    simp only [hws]
    rfl
  · have hsum : ∀ l : List User,
        (l.map fun _ => urls.length).sum = l.length * urls.length := by
      intro l
      induction l with
      | nil => simp
      | cons a t ih => simp [ih, Nat.succ_mul, Nat.add_comm]
    simp only [List.length_map, List.enum_length, List.length_flatMap,
      Function.comp_def, List.length_map]
    exact hsum users
  · intro r hr
    obtain ⟨p, hp, rfl⟩ := List.mem_map.mp hr
    have hp2 : p.2 ∈ users.flatMap fun u => urls.map fun url => (u, url) :=
      List.getElem?_mem (List.mem_enum_iff_getElem?.mp hp)
    obtain ⟨u, hu, hpu⟩ := List.mem_flatMap.mp hp2
    obtain ⟨url, hurl, hpe⟩ := List.mem_map.mp hpu
    obtain ⟨i, q⟩ := p
    cases hpe
    exact ⟨rfl, hurl, u, hu, rfl⟩

/-- Witness for C7 (amended): one user, one warm-up URL, one work unit. -/
theorem create_requests_spec_witness :
    ∃ bs ws,
      create_requests [sampleWorkUnit] ["http://example.com/warm"]
          [sampleUser] none (fun _ => 0) = .ok (bs ++ ws) ∧
      bs.length = [sampleUser].length * ["http://example.com/warm"].length ∧
      (∀ r ∈ bs, r.work_type = some .BEFORE_START ∧
        r.url ∈ ["http://example.com/warm"] ∧
        ∃ u ∈ [sampleUser], r.session_id = some u.session_id) ∧
      (∀ r ∈ ws, r.work_type = some .WORK) :=
  create_requests_spec [sampleWorkUnit] ["http://example.com/warm"]
    [sampleUser] none (fun _ => 0) (.inl (by simp))

end Lowkey
